import Mathlib

/-!
# BuildWatchDog — a shallow embedding of `src/buildwatchdog.py`

This file embeds the observable logic of the AWS CodeBuild monitor
`buildwatchdog.py` in Lean 4 and proves properties of the embedding.

Modelling conventions:
* Python `Optional[str]` fields and `dict.get` lookups become `Option String`.
* The external `aws codebuild batch-get-builds` subprocess is modelled by the
  inductive `CmdOutcome` describing every way the call can end
  (timeout, missing executable, other exception, or completion with an exit
  code, a stdout parse outcome and stderr text).
* Wall-clock timestamps are abstract `Nat` tick values: no claim depends on
  real time.
* The monitor loop consumes an explicit finite stream
  `List (Option BuildInfo)` of fetch results; a `KeyboardInterrupt` is
  modelled by an optional countdown of iterations before the interrupt fires.
* Rendering is side-effect free in the source; we model the data that the
  renderer displays (resolved phase statuses, the trimmed event list).
-/

namespace BuildWatchDog

/-- A phase element of the `phases` list in the CLI JSON:
`phase.get("phaseType", "Unknown")` / `phase.get("phaseStatus")`. -/
structure PhaseRec where
  phaseType : Option String
  phaseStatus : Option String
deriving Repr, DecidableEq

/-- One element of the JSON `builds` list.  The four keys the program
reads are modelled as optional fields (`none` = key absent); `otherKeys`
records whether the dict holds any key besides those four, which matters
only for Python's truthiness test `if not build_info` on the dict. -/
structure BuildInfo where
  buildStatus : Option String
  projectName : Option String
  currentPhase : Option String
  phases : Option (List PhaseRec)
  otherKeys : Bool
deriving Repr, DecidableEq

/-- Python truthiness of a build dict: falsy exactly when it has no keys
at all (so `(data["builds"][0] or {})`-style guards see `{}` as falsy). -/
def buildTruthy (info : BuildInfo) : Bool :=
  info.buildStatus.isSome || info.projectName.isSome ||
    info.currentPhase.isSome || info.phases.isSome || info.otherKeys

/-- Python truthiness of a fetch result (`if not build_info:`): `None`
and the empty dict are falsy. -/
def fetchTruthy : Option BuildInfo → Bool
  | none => false
  | some info => buildTruthy info

/-- `BuildEvent` dataclass: timestamp, status, message. -/
structure BuildEvent where
  timestamp : Nat
  status : String
  message : String
deriving Repr, DecidableEq

/-- The mutable fields of the `BuildWatchDog` object together with its
configuration (`build_id`, `interval`, `notify_mode`). -/
structure WatchState where
  buildId : String
  interval : Nat
  notifyMode : String
  events : List BuildEvent
  lastStatus : Option String
  projectName : String
deriving Repr, DecidableEq

/-! ## Status Fetcher (`AWSCLIWrapper.get_build_info`) -/

/-- Outcome of parsing the subprocess stdout:
`json.loads` raises (malformed), or yields a dict whose `"builds"` key is
absent (`none`) or a list of build objects. -/
inductive JsonOutcome where
  | malformed
  | parsed (builds : Option (List BuildInfo))
deriving Repr, DecidableEq

/-- Every way the `subprocess.run` call inside `get_build_info` can end:
`TimeoutExpired`, `FileNotFoundError`, any other exception, or completion
with a return code, parsed stdout and stderr text. -/
inductive CmdOutcome where
  | timedOut
  | execMissing
  | otherError (msg : String)
  | completed (returncode : Int) (stdout : JsonOutcome) (stderr : String)
deriving Repr, DecidableEq

/-- The error classes distinguished by the stderr substring checks in
`get_build_info` (lines 69–76). -/
inductive CliErrorKind where
  | awsCliNotFound
  | invalidCredentials
  | expiredCredentials
  | generic
deriving Repr, DecidableEq

/-- Python `str.lower()` restricted to the character-wise case mapping. -/
def lowerStr (s : String) : String := String.mk (s.data.map Char.toLower)

/-- `needle` occurs as a contiguous sublist of `hay`
(Python `needle in hay` on strings, at the character-list level). -/
def listContainsSub (needle hay : List Char) : Bool :=
  (List.range (hay.length + 1)).any fun i => needle.isPrefixOf (hay.drop i)

/-- Python `needle in hay` for strings. -/
def strContainsSub (hay needle : String) : Bool :=
  listContainsSub needle.data hay.data

/-- The stderr classification applied when the subprocess exits non-zero:
`"could not be found"`, then `"credentials"`, then `"expired"`, each checked
against `error_msg.lower()`, else the generic bucket. -/
def classifyCliError (errorMsg : String) : CliErrorKind :=
  let low := lowerStr errorMsg
  if strContainsSub low "could not be found" then .awsCliNotFound
  else if strContainsSub low "credentials" then .invalidCredentials
  else if strContainsSub low "expired" then .expiredCredentials
  else .generic

/-- `AWSCLIWrapper.get_build_info`: returns `some` build only when the
command exits zero with parseable JSON whose `builds` list is non-empty;
every failure path returns `none` (the function never raises). -/
def get_build_info (outcome : CmdOutcome) : Option BuildInfo :=
  match outcome with
  | .timedOut => none
  | .execMissing => none
  | .otherError _ => none
  | .completed rc stdout _ =>
    if rc ≠ 0 then none
    else
      match stdout with
      | .malformed => none
      | .parsed none => none
      | .parsed (some []) => none
      | .parsed (some (b :: _)) => some b

/-! ## Event Log (`BuildWatchDog.add_event`) -/

/-- `add_event(status, message)`: always appends a `BuildEvent`; when the
status differs from `last_status` and `last_status is not None`, sends a
desktop notification if `notify_mode in ["desktop", "both"]` and then
updates `last_status`.  The second component records whether
`notifier.send` was called. -/
def add_event (st : WatchState) (t : Nat) (status message : String) :
    WatchState × Bool :=
  let st' := { st with
    events := st.events ++ [⟨t, status, message⟩] }
  match st.lastStatus with
  | none => (st', false)
  | some prev =>
    if status ≠ prev then
      let notified := st.notifyMode = "desktop" ∨ st.notifyMode = "both"
      ({ st' with lastStatus := some status }, decide notified)
    else (st', false)

/-! ## Dashboard Renderer (`BuildWatchDog.create_display`) -/

/-- Python truthiness test `if not phase_status` on an optional string:
true for `None` and for the empty string. -/
def phaseStatusFalsy : Option String → Bool
  | none => true
  | some s => s = ""

/-- Per-phase status resolution in `create_display` (lines 176–182): a
falsy (`None`/empty) status falls back to `"SUCCEEDED"` when the phase is
named `"COMPLETED"` and the overall build status is `"SUCCEEDED"`, else to
`"PENDING"`; otherwise the phase's own status is used directly. -/
def resolvePhaseStatus (overall phaseName : String)
    (phaseStatus : Option String) : String :=
  if phaseStatusFalsy phaseStatus then
    if phaseName = "COMPLETED" ∧ overall = "SUCCEEDED" then "SUCCEEDED"
    else "PENDING"
  else phaseStatus.getD ""

/-- The phase timeline rows: phase name (defaulted to `"Unknown"`) paired
with its resolved status, in snapshot order. -/
def renderPhases (overall : String) (phases : List PhaseRec) :
    List (String × String) :=
  phases.map fun ph =>
    let name := ph.phaseType.getD "Unknown"
    (name, resolvePhaseStatus overall name ph.phaseStatus)

/-- The last `n` elements of a list, in order (Python `xs[-n:]`). -/
def lastN (n : Nat) (xs : List α) : List α := xs.drop (xs.length - n)

/-- The rows of the recent-events table: `self.events[-8:]`. -/
def displayedEvents (events : List BuildEvent) : List BuildEvent :=
  lastN 8 events

/-! ## Monitor Loop (`BuildWatchDog.run`) -/

/-- The five build statuses on which the loop exits (line 296). -/
def isTerminal (s : String) : Bool :=
  s = "SUCCEEDED" || s = "FAILED" || s = "STOPPED" || s = "FAULT" ||
    s = "TIMED_OUT"

/-- The status read from a snapshot: `build_info.get("buildStatus", "UNKNOWN")`. -/
def snapshotStatus (info : BuildInfo) : String :=
  info.buildStatus.getD "UNKNOWN"

/-- State update on a failed steady-state fetch (line 282):
`add_event("ERROR", "Failed to fetch build info")`. -/
def pollFailState (st : WatchState) (t : Nat) : WatchState :=
  (add_event st t "ERROR" "Failed to fetch build info").1

/-- State update on a successful steady-state fetch (lines 287–291): log a
transition event exactly when the fetched status differs from
`last_status`. -/
def pollSuccessState (st : WatchState) (t : Nat) (s : String) : WatchState :=
  if st.lastStatus = some s then st
  else (add_event st t s ("Status changed to " ++ s)).1

/-- Result of driving the monitor loop on a finite stream of fetch
results.  `remaining` is the unconsumed part of the stream;
`confirmRendered` records whether the confirmatory fetch passed the
`if final_build_info:` truthiness test and its snapshot was rendered. -/
inductive RunResult where
  | fatalStartup
  | finished (st : WatchState) (finalStatus : String)
      (confirmRendered : Bool) (summary : String)
      (remaining : List (Option BuildInfo))
  | interrupted (st : WatchState) (remaining : List (Option BuildInfo))
  | exhausted (st : WatchState)
deriving Repr, DecidableEq

/-- The `while True` polling loop of `BuildWatchDog.run`.  `intr`, when
`some k`, makes a `KeyboardInterrupt` fire at the top of iteration `k`
(counting from 0).  Each iteration consumes one fetch result; a terminal
status additionally consumes the next stream element as the confirmatory
fetch and exits with the summary line `Build <status>!`.  The
`if not build_info:` guard is a truthiness test, so a fetched empty dict
takes the ERROR path exactly like `None`, and the confirmatory snapshot
is rendered only when it is truthy (`if final_build_info:`). -/
def runLoop (st : WatchState) (t : Nat) (intr : Option Nat) :
    List (Option BuildInfo) → RunResult
  | [] => .exhausted st
  | f :: rest =>
    if intr = some 0 then .interrupted st (f :: rest)
    else
      let intr' := intr.map (· - 1)
      match f with
      | none => runLoop (pollFailState st t) (t + 1) intr' rest
      | some info =>
        if buildTruthy info = false then
          runLoop (pollFailState st t) (t + 1) intr' rest
        else
          let s := snapshotStatus info
          let st' := pollSuccessState st t s
          if isTerminal s then
            .finished st' s (fetchTruthy (rest.headD none))
              ("Build " ++ s ++ "!") rest.tail
          else runLoop st' (t + 1) intr' rest

/-- `BuildWatchDog.run`: initial fetch, fatal (`sys.exit(1)`) when the
result is falsy — `None` or an empty dict (`if not build_info:`) — then
record project name and initial status, log the synthetic start event,
and enter the polling loop. -/
def runMain (buildId : String) (interval : Nat) (notifyMode : String)
    (firstFetch : Option BuildInfo) (fetches : List (Option BuildInfo))
    (intr : Option Nat) : RunResult :=
  match firstFetch with
  | none => .fatalStartup
  | some info =>
    if buildTruthy info = false then .fatalStartup
    else
    let s0 := snapshotStatus info
    let st0 : WatchState :=
      { buildId := buildId, interval := interval, notifyMode := notifyMode,
        events := [], lastStatus := some s0,
        projectName := info.projectName.getD "Unknown" }
    let st1 := (add_event st0 0 s0 ("Started monitoring - " ++ s0)).1
    runLoop st1 1 intr fetches

/-- The process exit code produced by a run outcome: `1` for a failed
first fetch, `0` for a terminal status or a user interrupt, none while
still polling. -/
def exitCode : RunResult → Option Nat
  | .fatalStartup => some 1
  | .finished _ _ _ _ _ => some 0
  | .interrupted _ _ => some 0
  | .exhausted _ => none

/-! ## Helper lemmas -/

theorem add_event_fst_events (st : WatchState) (t : Nat) (status message : String) :
    (add_event st t status message).1.events = st.events ++ [⟨t, status, message⟩] := by
  unfold add_event
  cases st.lastStatus with
  | none => rfl
  | some prev =>
    by_cases h : status = prev
    · simp [h]
    · simp [h]

theorem add_event_fst_notifyMode (st : WatchState) (t : Nat) (status message : String) :
    (add_event st t status message).1.notifyMode = st.notifyMode := by
  unfold add_event
  cases st.lastStatus with
  | none => rfl
  | some prev =>
    by_cases h : status = prev
    · simp [h]
    · simp [h]

theorem runLoop_ne_fatal (st : WatchState) (t : Nat) (intr : Option Nat)
    (l : List (Option BuildInfo)) : runLoop st t intr l ≠ .fatalStartup := by
  induction l generalizing st t intr with
  | nil => simp [runLoop]
  | cons f rest ih =>
    unfold runLoop
    by_cases h : intr = some 0
    · simp [h]
    · cases f with
      | none =>
        simp only [if_neg h]
        exact ih _ _ _
      | some info =>
        by_cases htr : buildTruthy info = false
        · simp only [if_neg h, htr, if_true, eq_self_iff_true]
          exact ih _ _ _
        · by_cases ht : isTerminal (snapshotStatus info)
          · simp [h, htr, ht]
          · simp only [if_neg h, if_neg htr, ht, if_false, Bool.false_eq_true]
            exact ih _ _ _

/-! ## Claim theorems -/

/-- C2: `add_event` sends a desktop notification exactly when the status
differs from the recorded `last_status`, a recorded `last_status` exists,
and the notify mode is `"desktop"` or `"both"`; in particular it never
notifies when `last_status` is `None`, nor under the `"terminal"` mode. -/
theorem add_event_notifies_iff (st : WatchState) (t : Nat)
    (status message : String) :
    ((add_event st t status message).2 = true ↔
      st.lastStatus ≠ none ∧ st.lastStatus ≠ some status ∧
        (st.notifyMode = "desktop" ∨ st.notifyMode = "both")) ∧
    (st.lastStatus = none → (add_event st t status message).2 = false) ∧
    (st.notifyMode = "terminal" → (add_event st t status message).2 = false) := by
  have key : (add_event st t status message).2 = true ↔
      st.lastStatus ≠ none ∧ st.lastStatus ≠ some status ∧
        (st.notifyMode = "desktop" ∨ st.notifyMode = "both") := by
    unfold add_event
    cases h : st.lastStatus with
    | none => simp
    | some prev =>
      by_cases hs : status = prev
      · simp [hs]
      · simp [hs]
        tauto
  refine ⟨key, ?_, ?_⟩
  · intro h
    rw [Bool.eq_false_iff]
    intro htrue
    exact (key.mp htrue).1 h
  · intro h
    rw [Bool.eq_false_iff]
    intro htrue
    rcases (key.mp htrue).2.2 with hd | hb
    · rw [h] at hd
      exact absurd hd (by decide)
    · rw [h] at hb
      exact absurd hb (by decide)

/-- C2 witness: on a desktop-mode state whose recorded status differs, a
notification fires. -/
theorem add_event_notifies_iff_witness :
    (add_event ⟨"b", 10, "desktop", [], some "IN_PROGRESS", "demo"⟩ 1
      "SUCCEEDED" "Status changed to SUCCEEDED").2 = true :=
  (add_event_notifies_iff ⟨"b", 10, "desktop", [], some "IN_PROGRESS", "demo"⟩
    1 "SUCCEEDED" "Status changed to SUCCEEDED").1.mpr
    ⟨by decide, by decide, Or.inl rfl⟩

/-- C4: `add_event` updates `last_status` exactly when the new status
differs from a previously recorded one, independently of the notify mode;
otherwise `last_status` is unchanged. -/
theorem add_event_lastStatus (st : WatchState) (t : Nat)
    (status message : String) :
    (st.lastStatus ≠ none ∧ st.lastStatus ≠ some status →
      (add_event st t status message).1.lastStatus = some status) ∧
    (st.lastStatus = none ∨ st.lastStatus = some status →
      (add_event st t status message).1.lastStatus = st.lastStatus) ∧
    (∀ mode, (add_event { st with notifyMode := mode } t status message).1.lastStatus
      = (add_event st t status message).1.lastStatus) := by
  refine ⟨?_, ?_, ?_⟩
  · intro ⟨h1, h2⟩
    unfold add_event
    cases h : st.lastStatus with
    | none => exact absurd h h1
    | some prev =>
      have hs : status ≠ prev := by
        intro he
        exact h2 (by rw [h, he])
      simp [hs]
  · intro h
    unfold add_event
    cases h with
    | inl h => simp [h]
    | inr h => simp [h]
  · intro mode
    unfold add_event
    cases h : st.lastStatus with
    | none => simp
    | some prev =>
      by_cases hs : status = prev
      · simp [hs]
      · simp [hs]

/-- C4 witness: a changed status updates the marker. -/
theorem add_event_lastStatus_witness :
    (add_event ⟨"b", 10, "terminal", [], some "IN_PROGRESS", "demo"⟩ 1
      "SUCCEEDED" "m").1.lastStatus = some "SUCCEEDED" :=
  (add_event_lastStatus ⟨"b", 10, "terminal", [], some "IN_PROGRESS", "demo"⟩
    1 "SUCCEEDED" "m").1 ⟨by decide, by decide⟩

/-- C3: the steady-state success path appends a `Status changed to ...`
event exactly when the fetched status differs from the `last_status`
marker, and leaves the event log unchanged exactly when they agree. -/
theorem pollSuccess_transition_iff (st : WatchState) (t : Nat) (s : String) :
    ((pollSuccessState st t s).events
        = st.events ++ [⟨t, s, "Status changed to " ++ s⟩] ↔
      st.lastStatus ≠ some s) ∧
    ((pollSuccessState st t s).events = st.events ↔ st.lastStatus = some s) := by
  unfold pollSuccessState
  by_cases h : st.lastStatus = some s
  · simp [h]
  · simp [h, add_event_fst_events]

/-- C3 witness: a fetch matching the recorded status logs nothing. -/
theorem pollSuccess_transition_iff_witness :
    (pollSuccessState ⟨"b", 10, "both", [], some "IN_PROGRESS", "demo"⟩ 3
        "IN_PROGRESS").events
      = (⟨"b", 10, "both", [], some "IN_PROGRESS", "demo"⟩ : WatchState).events :=
  (pollSuccess_transition_iff
    ⟨"b", 10, "both", [], some "IN_PROGRESS", "demo"⟩ 3 "IN_PROGRESS").2.mpr rfl

/-- C5: each rendered phase row resolves its status by: own (non-falsy)
status first; else `SUCCEEDED` for a `COMPLETED`-named phase of an overall
`SUCCEEDED` build; else `PENDING`.  In particular a `COMPLETED` phase with
absent status renders `SUCCEEDED` under an overall `SUCCEEDED` build and
`PENDING` under an overall `IN_PROGRESS` build. -/
theorem resolvePhaseStatus_policy (overall name : String) (ps : Option String)
    (phases : List PhaseRec) :
    (∀ s, ps = some s → s ≠ "" → resolvePhaseStatus overall name ps = s) ∧
    (phaseStatusFalsy ps = true →
      resolvePhaseStatus overall name ps =
        if name = "COMPLETED" ∧ overall = "SUCCEEDED" then "SUCCEEDED"
        else "PENDING") ∧
    resolvePhaseStatus "SUCCEEDED" "COMPLETED" none = "SUCCEEDED" ∧
    resolvePhaseStatus "IN_PROGRESS" "COMPLETED" none = "PENDING" ∧
    renderPhases overall phases = phases.map (fun ph =>
      (ph.phaseType.getD "Unknown",
        resolvePhaseStatus overall (ph.phaseType.getD "Unknown")
          ph.phaseStatus)) := by
  refine ⟨?_, ?_, by decide, by decide, rfl⟩
  · intro s hps hs
    subst hps
    simp [resolvePhaseStatus, phaseStatusFalsy, hs]
  · intro hf
    simp [resolvePhaseStatus, hf]

/-- C5 witness: a non-falsy status is used directly. -/
theorem resolvePhaseStatus_policy_witness :
    resolvePhaseStatus "IN_PROGRESS" "BUILD" (some "IN_PROGRESS")
      = "IN_PROGRESS" :=
  (resolvePhaseStatus_policy "IN_PROGRESS" "BUILD" (some "IN_PROGRESS") []).1
    "IN_PROGRESS" rfl (by decide)

/-- C8: the recent-events table shows at most 8 rows; with more than 8
logged events it shows exactly the 8 most recent in order; and `add_event`
only ever appends, never trims, the in-memory event list. -/
theorem displayedEvents_bounded (events : List BuildEvent) (st : WatchState)
    (t : Nat) (status message : String) :
    (displayedEvents events).length ≤ 8 ∧
    (8 < events.length →
      (displayedEvents events).length = 8 ∧
      ∃ pre, events = pre ++ displayedEvents events ∧
        pre.length = events.length - 8) ∧
    (add_event st t status message).1.events
      = st.events ++ [⟨t, status, message⟩] := by
  refine ⟨?_, ?_, add_event_fst_events st t status message⟩
  · simp only [displayedEvents, lastN, List.length_drop]
    omega
  · intro h
    refine ⟨?_, List.take (events.length - 8) events, ?_, ?_⟩
    · simp only [displayedEvents, lastN, List.length_drop]
      omega
    · simp [displayedEvents, lastN]
    · simp only [List.length_take]
      omega

/-- C8 witness: with 9 events logged, the display shows the last 8. -/
theorem displayedEvents_bounded_witness :
    8 < (List.range 9).length ∧
    (displayedEvents ((List.range 9).map (fun i => ⟨i, "S", "m"⟩))).length
      = 8 :=
  ⟨by decide,
    ((displayedEvents_bounded ((List.range 9).map (fun i => ⟨i, "S", "m"⟩))
      ⟨"b", 10, "both", [], none, ""⟩ 0 "S" "m").2.1 (by simp)).1⟩

/-- C7: `get_build_info` yields a build snapshot exactly when the external
command exits zero with parseable JSON containing a non-empty `builds`
list (the first build is returned); every other outcome — non-zero exit,
malformed output, missing or empty `builds`, timeout, missing executable,
or any other exception — yields `none` rather than an exception. -/
theorem get_build_info_total (o : CmdOutcome) :
    ((∃ b, get_build_info o = some b) ↔
      ∃ b rest stderr,
        o = .completed 0 (.parsed (some (b :: rest))) stderr) ∧
    (∀ b rest stderr,
      get_build_info (.completed 0 (.parsed (some (b :: rest))) stderr)
        = some b) ∧
    get_build_info .timedOut = none ∧
    get_build_info .execMissing = none ∧
    (∀ m, get_build_info (.otherError m) = none) ∧
    (∀ rc stdout stderr, rc ≠ 0 →
      get_build_info (.completed rc stdout stderr) = none) ∧
    (∀ rc stderr, get_build_info (.completed rc .malformed stderr) = none) ∧
    (∀ rc stderr,
      get_build_info (.completed rc (.parsed none) stderr) = none) ∧
    (∀ rc stderr,
      get_build_info (.completed rc (.parsed (some [])) stderr) = none) := by
  refine ⟨?_, by intro b rest stderr; rfl, rfl, rfl, by intro m; rfl,
    ?_, ?_, ?_, ?_⟩
  · constructor
    · rintro ⟨b, hb⟩
      cases o with
      | timedOut => simp [get_build_info] at hb
      | execMissing => simp [get_build_info] at hb
      | otherError m => simp [get_build_info] at hb
      | completed rc stdout stderr =>
        by_cases hrc : rc = 0
        · subst hrc
          cases stdout with
          | malformed => simp [get_build_info] at hb
          | parsed builds =>
            match builds with
            | none => simp [get_build_info] at hb
            | some [] => simp [get_build_info] at hb
            | some (b0 :: rest) =>
              refine ⟨b0, rest, stderr, rfl⟩
        · simp [get_build_info, hrc] at hb
    · rintro ⟨b, rest, stderr, rfl⟩
      exact ⟨b, rfl⟩
  · intro rc stdout stderr hrc
    simp [get_build_info, hrc]
  · intro rc stderr
    by_cases hrc : rc = 0
    · subst hrc; rfl
    · simp [get_build_info, hrc]
  · intro rc stderr
    by_cases hrc : rc = 0
    · subst hrc; rfl
    · simp [get_build_info, hrc]
  · intro rc stderr
    by_cases hrc : rc = 0
    · subst hrc; rfl
    · simp [get_build_info, hrc]

/-- C7 witness: a zero-exit, well-formed, non-empty response yields its
first build; a non-zero exit yields no data. -/
theorem get_build_info_total_witness :
    get_build_info (.completed 0
        (.parsed (some [⟨some "SUCCEEDED", some "demo", some "", some [], false⟩])) "")
      = some ⟨some "SUCCEEDED", some "demo", some "", some [], false⟩ ∧
    get_build_info (.completed 255 (.parsed (some [])) "boom") = none :=
  ⟨(get_build_info_total (.completed 0
      (.parsed (some [⟨some "SUCCEEDED", some "demo", some "", some [], false⟩])) "")).2.1
      ⟨some "SUCCEEDED", some "demo", some "", some [], false⟩ [] "",
    (get_build_info_total (.completed 255 (.parsed (some [])) "boom")).2.2.2.2.2.1
      255 (.parsed (some [])) "boom" (by decide)⟩

theorem strContainsSub_sandwich (a s b : String) :
    strContainsSub (a ++ s ++ b) s = true := by
  unfold strContainsSub listContainsSub
  rw [List.any_eq_true]
  refine ⟨a.data.length, ?_, ?_⟩
  · rw [List.mem_range]
    have hd : (a ++ s ++ b).data = a.data ++ (s.data ++ b.data) := by
      simp [String.data_append]
    rw [hd]
    simp
    omega
  · have hd : (a ++ s ++ b).data = a.data ++ (s.data ++ b.data) := by
      simp [String.data_append]
    rw [hd, List.drop_left, List.isPrefixOf_iff_prefix]
    exact List.prefix_append s.data b.data

theorem exitCode_eq_one_iff (r : RunResult) :
    exitCode r = some 1 ↔ r = .fatalStartup := by
  cases r <;> simp [exitCode]

/-- C1: a polling iteration that observes a status — i.e. the fetched
snapshot is truthy, so the `if not build_info:` guard is passed — and
finds it terminal consumes exactly one extra confirmatory fetch,
re-renders with it only when that fetch yields a truthy snapshot, exits
0, and the printed summary line contains the status; a non-terminal
status consumes no extra fetch and continues polling. -/
theorem runLoop_terminal_step (st : WatchState) (t : Nat) (intr : Option Nat)
    (info : BuildInfo) (rest : List (Option BuildInfo))
    (h : intr ≠ some 0) (htr : buildTruthy info = true) :
    (isTerminal (snapshotStatus info) = true →
      runLoop st t intr (some info :: rest)
        = .finished (pollSuccessState st t (snapshotStatus info))
            (snapshotStatus info) (fetchTruthy (rest.headD none))
            ("Build " ++ snapshotStatus info ++ "!") rest.tail ∧
      exitCode (runLoop st t intr (some info :: rest)) = some 0 ∧
      strContainsSub ("Build " ++ snapshotStatus info ++ "!")
        (snapshotStatus info) = true) ∧
    (isTerminal (snapshotStatus info) = false →
      runLoop st t intr (some info :: rest)
        = runLoop (pollSuccessState st t (snapshotStatus info)) (t + 1)
            (intr.map (· - 1)) rest) := by
  constructor
  · intro hT
    have heq : runLoop st t intr (some info :: rest)
        = .finished (pollSuccessState st t (snapshotStatus info))
            (snapshotStatus info) (fetchTruthy (rest.headD none))
            ("Build " ++ snapshotStatus info ++ "!") rest.tail := by
      unfold runLoop
      simp [h, htr, hT]
    exact ⟨heq, by rw [heq]; rfl,
      strContainsSub_sandwich "Build " (snapshotStatus info) "!"⟩
  · intro hT
    simp only [runLoop]
    simp [h, htr, hT]

/-- C1 witness: a SUCCEEDED fetch ends the loop with exit code 0. -/
theorem runLoop_terminal_step_witness :
    exitCode (runLoop ⟨"b", 10, "both", [], some "IN_PROGRESS", "demo"⟩ 1 none
      [some ⟨some "SUCCEEDED", some "demo", some "", some [], false⟩, none])
      = some 0 :=
  ((runLoop_terminal_step ⟨"b", 10, "both", [], some "IN_PROGRESS", "demo"⟩
    1 none ⟨some "SUCCEEDED", some "demo", some "", some [], false⟩ [none]
    (by decide) (by decide)).1 (by decide)).2.1

/-- C6 counterexample: exit 1 is not equivalent to the first fetch
returning no data.  For stdout `{"builds": [{}]}` the fetcher returns the
empty build dict — data, not the no-data result — yet the startup guard
`if not build_info:` sees a falsy dict and the process exits 1. -/
theorem exit_one_on_falsy_counterexample :
    get_build_info (.completed 0
        (.parsed (some [⟨none, none, none, none, false⟩])) "")
      = some ⟨none, none, none, none, false⟩ ∧
    exitCode (runMain "b" 10 "both"
      (some ⟨none, none, none, none, false⟩) [] none) = some 1 := by
  refine ⟨rfl, by decide⟩

/-- C6 (amended): the process exits 1 exactly when the very first fetch
result is falsy — `None` or an empty build dict; a falsy fetch inside the
loop merely logs an ERROR event and keeps polling; exit code 0 arises
exactly from reaching a terminal status or a user interrupt. -/
theorem exit_code_policy (buildId : String) (interval : Nat)
    (notifyMode : String) (firstFetch : Option BuildInfo)
    (fetches : List (Option BuildInfo)) (intr : Option Nat) :
    (exitCode (runMain buildId interval notifyMode firstFetch fetches intr)
        = some 1 ↔ fetchTruthy firstFetch = false) ∧
    (∀ st t i rest f, i ≠ some 0 → fetchTruthy f = false →
      runLoop st t i (f :: rest)
        = runLoop (pollFailState st t) (t + 1) (i.map (· - 1)) rest ∧
      (pollFailState st t).events
        = st.events ++ [⟨t, "ERROR", "Failed to fetch build info"⟩]) ∧
    (∀ r : RunResult, exitCode r = some 0 ↔
      (∃ st s c sum rem, r = .finished st s c sum rem) ∨
      (∃ st rem, r = .interrupted st rem)) := by
  refine ⟨?_, ?_, ?_⟩
  · constructor
    · intro hx
      rw [exitCode_eq_one_iff] at hx
      cases firstFetch with
      | none => rfl
      | some info =>
        by_cases htr : buildTruthy info = false
        · simp [fetchTruthy, htr]
        · exfalso
          simp only [runMain] at hx
          simp only [if_neg htr] at hx
          exact runLoop_ne_fatal _ _ _ _ hx
    · intro hf
      cases firstFetch with
      | none => rfl
      | some info =>
        have htr : buildTruthy info = false := by
          simpa [fetchTruthy] using hf
        simp [runMain, htr, exitCode]
  · intro st t i rest f hi hf
    refine ⟨?_, add_event_fst_events st t "ERROR" "Failed to fetch build info"⟩
    cases f with
    | none =>
      simp only [runLoop]
      simp [hi]
    | some info =>
      have htr : buildTruthy info = false := by
        simpa [fetchTruthy] using hf
      simp only [runLoop]
      simp [hi, htr]
  · intro r
    cases r with
    | fatalStartup => simp [exitCode]
    | finished st s c sum rem =>
      simp only [exitCode]
      constructor
      · intro _
        exact Or.inl ⟨st, s, c, sum, rem, rfl⟩
      · intro _
        trivial
    | interrupted st rem =>
      simp only [exitCode]
      constructor
      · intro _
        exact Or.inr ⟨st, rem, rfl⟩
      · intro _
        trivial
    | exhausted st => simp [exitCode]

/-- C6 witness: a failed first fetch exits 1; a truthy one does not. -/
theorem exit_code_policy_witness :
    exitCode (runMain "b" 10 "both" none [] none) = some 1 ∧
    exitCode (runMain "b" 10 "both"
      (some ⟨some "IN_PROGRESS", some "demo", some "", some [], false⟩)
      [some ⟨some "SUCCEEDED", some "demo", some "", some [], false⟩, none]
      none) ≠ some 1 :=
  ⟨(exit_code_policy "b" 10 "both" none [] none).1.mpr rfl,
    fun hx => absurd ((exit_code_policy "b" 10 "both"
      (some ⟨some "IN_PROGRESS", some "demo", some "", some [], false⟩)
      [some ⟨some "SUCCEEDED", some "demo", some "", some [], false⟩, none]
      none).1.mp hx) (by decide)⟩

/-- C9: a failed steady-state fetch logs an ERROR event and moves the
`last_status` marker to `"ERROR"`; the next successful fetch therefore
logs a transition event — even when its status equals the pre-failure
one — and notifies exactly when the mode is `"desktop"` or `"both"`. -/
theorem fetch_error_forces_transition (st : WatchState) (t t' : Nat)
    (p s : String) (hp : st.lastStatus = some p) (hpe : p ≠ "ERROR")
    (hse : s ≠ "ERROR") :
    (pollFailState st t).lastStatus = some "ERROR" ∧
    (pollFailState st t).events
      = st.events ++ [⟨t, "ERROR", "Failed to fetch build info"⟩] ∧
    (pollSuccessState (pollFailState st t) t' s).events
      = (pollFailState st t).events
          ++ [⟨t', s, "Status changed to " ++ s⟩] ∧
    ((add_event (pollFailState st t) t' s ("Status changed to " ++ s)).2
        = true ↔
      st.notifyMode = "desktop" ∨ st.notifyMode = "both") := by
  have hm : (pollFailState st t).notifyMode = st.notifyMode :=
    add_event_fst_notifyMode st t "ERROR" "Failed to fetch build info"
  have h1 : (pollFailState st t).lastStatus = some "ERROR" := by
    unfold pollFailState add_event
    rw [hp]
    have hne : ("ERROR" : String) ≠ p := fun he => hpe he.symm
    simp [hne]
  refine ⟨h1, add_event_fst_events st t "ERROR" "Failed to fetch build info",
    ?_, ?_⟩
  · unfold pollSuccessState
    have hns : (pollFailState st t).lastStatus ≠ some s := by
      rw [h1]
      intro he
      exact hse (Option.some.inj he).symm
    simp [hns, add_event_fst_events]
  · unfold add_event
    rw [h1]
    simp [hse, hm, decide_eq_true_iff]

/-- C9 witness: after a fetch failure the marker reads ERROR. -/
theorem fetch_error_forces_transition_witness :
    (pollFailState ⟨"b", 10, "both", [], some "IN_PROGRESS", "demo"⟩
      1).lastStatus = some "ERROR" :=
  (fetch_error_forces_transition
    ⟨"b", 10, "both", [], some "IN_PROGRESS", "demo"⟩ 1 2
    "IN_PROGRESS" "IN_PROGRESS" rfl (by decide) (by decide)).1

/-- C10 counterexample: error text containing both `credentials` and
`expired` is not always classified as invalid-credentials — when it also
contains `could not be found`, that earlier check wins. -/
theorem classify_both_counterexample :
    strContainsSub (lowerStr "Credentials could not be found (expired)")
      "credentials" = true ∧
    strContainsSub (lowerStr "Credentials could not be found (expired)")
      "expired" = true ∧
    classifyCliError "Credentials could not be found (expired)"
      ≠ .invalidCredentials := by
  refine ⟨by decide, by decide, by decide⟩

/-- C10 (amended): the substring checks apply in precedence order
`could not be found`, `credentials`, `expired`, generic; text containing
`credentials` but not `could not be found` is classified
invalid-credentials, and the expired diagnostic arises exactly for text
containing `expired` but neither `could not be found` nor
`credentials`. -/
theorem classifyCliError_precedence (m : String) :
    (strContainsSub (lowerStr m) "could not be found" = true →
      classifyCliError m = .awsCliNotFound) ∧
    (strContainsSub (lowerStr m) "could not be found" = false →
      strContainsSub (lowerStr m) "credentials" = true →
      classifyCliError m = .invalidCredentials) ∧
    (classifyCliError m = .expiredCredentials ↔
      strContainsSub (lowerStr m) "expired" = true ∧
      strContainsSub (lowerStr m) "could not be found" = false ∧
      strContainsSub (lowerStr m) "credentials" = false) := by
  unfold classifyCliError
  by_cases h1 : strContainsSub (lowerStr m) "could not be found" = true
  · simp [h1]
  · by_cases h2 : strContainsSub (lowerStr m) "credentials" = true
    · simp [h1, h2]
    · by_cases h3 : strContainsSub (lowerStr m) "expired" = true
      · simp [h1, h2, h3]
      · simp [h1, h2, h3]

/-- C10 witness: text with `credentials` alone classifies as
invalid-credentials. -/
theorem classifyCliError_precedence_witness :
    classifyCliError "Unable to locate credentials" = .invalidCredentials :=
  (classifyCliError_precedence "Unable to locate credentials").2.1
    (by decide) (by decide)

end BuildWatchDog
